import Mathlib

/-!
Verification of the GreenPipeline measurement pipeline.

Shallow embedding of the two source files:
  * src/core/estimator.py  — the power/energy/carbon conversion model
    (class EnergyEstimator with `_calculate_energy`, `measure_execution`,
    `estimate_from_metrics`).
  * src/src/greenpipeline/cli.py — the CLI orchestrator
    (class GreenPipelineCLI with `run_command`, `_save_to_history`,
    `compare_locations`).

Python floats are modelled as rationals; Python `round(x, n)` is modelled
as round-half-to-even on rationals. External collaborators (subprocess
execution, wall-clock timing, psutil sampling) are parameters of the
embedded functions, following the component boundaries of the spec.
-/

namespace GreenPipeline

/-! ## Estimator: src/core/estimator.py -/

/-- The `EnergyMetrics` dataclass of estimator.py. -/
structure EnergyMetrics where
  duration_seconds : ℚ
  cpu_percent : ℚ
  memory_mb : ℚ
  energy_joules : ℚ
  carbon_grams : ℚ
  sci_score : ℚ
deriving DecidableEq, Repr

/-- Class constant `CPU_POWER_FACTOR = 0.6`. -/
def CPU_POWER_FACTOR : ℚ := 6 / 10

/-- Class constant `CPU_BASELINE = 0.4`. -/
def CPU_BASELINE : ℚ := 4 / 10

/-- Class constant `RAM_WATTS_PER_GB = 0.375`. -/
def RAM_WATTS_PER_GB : ℚ := 375 / 1000

/-- The `CPU_TDP` dictionary lookup with `.get(platform, 65)` default. -/
def CPU_TDP (machine : String) : ℚ :=
  if machine = "x86_64" then 65
  else if machine = "aarch64" then 15
  else if machine = "arm64" then 15
  else 65

/-- The per-instance state of `EnergyEstimator.__init__`: the carbon
intensity passed to the constructor (default 475) and the TDP resolved
from the detected platform string. -/
structure EnergyEstimator where
  carbon_intensity : ℚ := 475
  tdp : ℚ := 65
deriving DecidableEq, Repr

/-- The power portion of `EnergyEstimator._calculate_energy`
(lines 106-116): `cpu_util = cpu_percent / 100.0`;
`cpu_power = tdp * (cpu_util * 0.6 + 0.4)`;
`ram_power = memory_gb * 0.375`; `total = cpu_power + ram_power`.
No clamping of any kind appears in the source. -/
def power_watts (tdp cpu_percent memory_gb : ℚ) : ℚ :=
  let cpu_util := cpu_percent / 100
  let cpu_power := tdp * (cpu_util * CPU_POWER_FACTOR + CPU_BASELINE)
  let ram_power := memory_gb * RAM_WATTS_PER_GB
  cpu_power + ram_power

/-- `EnergyEstimator._calculate_energy` (estimator.py lines 95-137). -/
def calculate_energy (est : EnergyEstimator)
    (duration cpu_percent memory_gb : ℚ) : EnergyMetrics :=
  let cpu_util := cpu_percent / 100
  let cpu_power := est.tdp * (cpu_util * CPU_POWER_FACTOR + CPU_BASELINE)
  let ram_power := memory_gb * RAM_WATTS_PER_GB
  let total_power_watts := cpu_power + ram_power
  let energy_joules := total_power_watts * duration
  let energy_kwh := energy_joules / 3600000
  let carbon_grams := energy_kwh * est.carbon_intensity
  let sci_score := carbon_grams
  { duration_seconds := duration
    cpu_percent := cpu_percent
    memory_mb := memory_gb * 1024
    energy_joules := energy_joules
    carbon_grams := carbon_grams
    sci_score := sci_score }

/-- The averaging step of `EnergyEstimator.measure_execution`
(lines 85-88): `sum(samples) / len(samples) if samples else 0`. -/
def average (samples : List ℚ) : ℚ :=
  if samples = [] then 0 else samples.sum / samples.length

/-- The deterministic conversion tail of `EnergyEstimator.measure_execution`
(lines 82-93): given the observed duration and the sample series collected
by the background thread, average each series and call `_calculate_energy`.
The concurrent sampling itself is an external effect; its outcome is the
two sample lists. -/
def measure_execution_metrics (est : EnergyEstimator) (duration : ℚ)
    (cpu_samples memory_samples : List ℚ) : EnergyMetrics :=
  calculate_energy est duration (average cpu_samples) (average memory_samples)

/-- `EnergyEstimator.estimate_from_metrics` (lines 139-146):
`_calculate_energy(duration, cpu_percent, memory_mb / 1024)`. -/
def estimate_from_metrics (est : EnergyEstimator)
    (duration cpu_percent memory_mb : ℚ) : EnergyMetrics :=
  calculate_energy est duration cpu_percent (memory_mb / 1024)

/-! ## CLI: src/src/greenpipeline/cli.py -/

/-- Python `round` to an integer: round half to even. -/
def round_half_even (x : ℚ) : ℤ :=
  let f := ⌊x⌋
  let r := x - f
  if r < 1 / 2 then f
  else if 1 / 2 < r then f + 1
  else if f % 2 = 0 then f else f + 1

/-- Python `round(x, n)` for a nonnegative number of decimal places. -/
def round_to (x : ℚ) (n : ℕ) : ℚ :=
  (round_half_even (x * 10 ^ n) : ℚ) / 10 ^ n

/-- Outcome of the external workload-execution collaborator
(`subprocess.run` in `run_command`): success flag plus captured
stdout/stderr streams. -/
structure ExecOutcome where
  success : Bool
  stdout : String
  stderr : String
deriving DecidableEq, Repr

/-- `run_command` line 56: `output = result.stdout if success else result.stderr`. -/
def captured_output (ex : ExecOutcome) : String :=
  if ex.success then ex.stdout else ex.stderr

/-- `run_command` line 45: the simulated carbon-intensity lookup
`420 if location == "DE" else 165 if location == "CO" else 389`. -/
def carbon_intensity_for (location : String) : ℚ :=
  if location = "DE" then 420 else if location = "CO" then 165 else 389

/-- The nested `metrics` mapping of the `result_data` dict built by
`run_command` (lines 81-88). -/
structure RunMetrics where
  cpu_percent : ℚ
  memory_mb : ℚ
  energy_joules : ℚ
  energy_kwh : ℚ
  carbon_grams : ℚ
  carbon_intensity : ℚ
deriving DecidableEq, Repr

/-- The `result_data` dict built by `run_command` (lines 75-93): the
persisted Measurement record (the `timestamp` field, wall-clock only, is
omitted from the model). -/
structure RunResult where
  command : String
  location : String
  success : Bool
  duration_seconds : ℚ
  metrics : RunMetrics
  smartphone_charges : ℚ
  km_driven : ℚ
deriving DecidableEq, Repr

/-- The measurement computation of `GreenPipelineCLI.run_command`
(lines 45-93): resolve intensity from the location, take the execution
outcome and observed duration from the external collaborator, use the
MVP placeholder utilization figures (`cpu_percent = 45.0`,
`memory_mb = 512.0`), compute `energy_joules = duration * 25`,
`energy_kwh = energy_joules / 3600000`,
`carbon_grams = energy_kwh * carbon_intensity`, and assemble
`result_data` with its stored roundings. -/
def run_command_result (command location : String) (ex : ExecOutcome)
    (duration : ℚ) : RunResult :=
  let carbon_intensity := carbon_intensity_for location
  let cpu_percent : ℚ := 45
  let memory_mb : ℚ := 512
  let energy_joules := duration * 25
  let energy_kwh := energy_joules / 3600000
  let carbon_grams := energy_kwh * carbon_intensity
  { command := command
    location := location
    success := ex.success
    duration_seconds := round_to duration 2
    metrics :=
      { cpu_percent := cpu_percent
        memory_mb := memory_mb
        energy_joules := round_to energy_joules 2
        energy_kwh := round_to energy_kwh 6
        carbon_grams := round_to carbon_grams 4
        carbon_intensity := carbon_intensity }
    smartphone_charges := round_to (carbon_grams * 1000 / (62 / 1000)) 1
    km_driven := round_to (carbon_grams / 192) 3 }

/-- `GreenPipelineCLI._save_to_history` (lines 147-163): load the current
log, append the new entry, keep the last 100 (`history = history[-100:]`),
write back. The Python slice `l[-100:]` keeps the final `min(100, len l)`
elements, i.e. drops `len l - 100` from the front. -/
def save_to_history (history : List RunResult) (data : RunResult) :
    List RunResult :=
  (history ++ [data]).drop ((history ++ [data]).length - 100)

/-- `GreenPipelineCLI.run_command` end to end (lines 22-102): produce the
`result_data` Measurement and, when `save_history` is set, append it to
the persisted history. Returns the Measurement and the resulting history. -/
def run_command (command location : String) (save_history : Bool)
    (ex : ExecOutcome) (duration : ℚ) (history : List RunResult) :
    RunResult × List RunResult :=
  let data := run_command_result command location ex duration
  (data, if save_history then save_to_history history data else history)

/-- The fixed location list of `GreenPipelineCLI.compare_locations`
(lines 199-204). -/
def comparison_locations : List (String × String) :=
  [("Colombia", "CO"), ("Alemania", "DE"), ("California", "US-CA"),
   ("Francia", "FR")]

/-- The comparison table printed by `compare_locations` (lines 220-229):
`baseline = results[0].metrics.carbon_grams`; each entry reports
`(name, carbon, (carbon - baseline) / baseline * 100)`, in the order of
`results`. -/
def compare_entries (results : List (String × RunResult)) :
    List (String × ℚ × ℚ) :=
  match results with
  | [] => []
  | (_, r0) :: _ =>
    let baseline := r0.metrics.carbon_grams
    results.map fun p =>
      (p.1, p.2.metrics.carbon_grams,
        (p.2.metrics.carbon_grams - baseline) / baseline * 100)

/-- `GreenPipelineCLI.compare_locations` (lines 197-229): run
`run_command` once per location of the fixed list, with history writes
suppressed (`save_history=False`), then build the comparison table. The
per-location execution outcome and observed duration come from the
external collaborator, modelled as functions of the location code. -/
def compare_locations (command : String) (execs : String → ExecOutcome)
    (durations : String → ℚ) : List (String × ℚ × ℚ) :=
  compare_entries
    (comparison_locations.map fun p =>
      (p.1, run_command_result command p.2 (execs p.2) (durations p.2)))

/-! ## Helper lemmas -/

/-- Characterization of one append: the stored log is the old log with its
front dropped down to 99 entries, followed by the new entry. -/
lemma save_to_history_eq (h : List RunResult) (m : RunResult) :
    save_to_history h m = h.drop (h.length + 1 - 100) ++ [m] := by
  show (h ++ [m]).drop ((h ++ [m]).length - 100) = _
  simp only [List.length_append, List.length_cons, List.length_nil]
  rw [List.drop_append_of_le_length (by omega)]

/-- Appending to an already-truncated log gives the truncation of the fully
accumulated sequence. -/
lemma save_to_history_drop (h : List RunResult) (m : RunResult) :
    save_to_history (h.drop (h.length - 100)) m =
      (h ++ [m]).drop ((h ++ [m]).length - 100) := by
  show save_to_history (h.drop (h.length - 100)) m = save_to_history h m
  rw [save_to_history_eq, save_to_history_eq, List.length_drop, List.drop_drop]
  exact congrArg (fun n => List.drop n h ++ [m]) (by omega)

/-- Folding appends over a truncated log keeps exactly the last 100 of the
accumulated sequence. -/
lemma foldl_save_to_history (ms : List RunResult) :
    ∀ h : List RunResult,
      ms.foldl save_to_history (h.drop (h.length - 100)) =
        (h ++ ms).drop ((h ++ ms).length - 100) := by
  induction ms with
  | nil => intro h; simp
  | cons m ms ih =>
    intro h
    rw [List.foldl_cons, save_to_history_drop, ih (h ++ [m])]
    simp [List.append_assoc]

/-! ## Claim theorems -/

/-- Claim C1, counterexample. The claim asserts that the identity
carbon_grams = energy_kwh * carbon_intensity also holds for the values
recorded in a persisted Measurement. It fails at the concrete input
duration = 1 s, location GLOBAL, successful execution: the record that
run_command builds and persists stores energy_kwh rounded to 6 decimal
places (0.000007) and carbon_grams rounded to 4 decimal places (0.0027),
and 0.000007 * 389 = 0.002723 is not equal to 0.0027. The first conjunct
checks that this record is exactly what the history append persists. -/
theorem carbon_identity_persisted_cex :
    save_to_history [] (run_command_result "npm test" "GLOBAL" ⟨true, "", ""⟩ 1) =
      [run_command_result "npm test" "GLOBAL" ⟨true, "", ""⟩ 1] ∧
    (run_command_result "npm test" "GLOBAL" ⟨true, "", ""⟩ 1).metrics.carbon_grams ≠
      (run_command_result "npm test" "GLOBAL" ⟨true, "", ""⟩ 1).metrics.energy_kwh *
        (run_command_result "npm test" "GLOBAL" ⟨true, "", ""⟩ 1).metrics.carbon_intensity := by
  constructor
  · rfl
  · have hg : carbon_intensity_for "GLOBAL" = 389 := rfl
    simp only [run_command_result, hg, round_to, round_half_even]
    norm_num

/-- Claim C1, amended. For every valid input the carbon_grams value
computed by the measurement pipeline equals
energy_kwh * carbon_intensity exactly, with energy_kwh =
energy_joules / 3 600 000: this holds for the EnergyMetrics produced by
the estimator (conjuncts 1 and 2, which also give sci_score =
carbon_grams), and the values that run_command computes satisfy it
before storage. The persisted Measurement, however, stores each figure
rounded (carbon_grams to 4 and energy_kwh to 6 decimal places), so for
persisted entries the identity holds only up to those storage roundings
(conjuncts 3 and 4 characterize the stored fields as the rounded exact
values). -/
theorem carbon_identity_amended (est : EnergyEstimator) (d c m dur : ℚ)
    (cmd loc : String) (ex : ExecOutcome) :
    (calculate_energy est d c m).carbon_grams =
      (calculate_energy est d c m).energy_joules / 3600000 * est.carbon_intensity ∧
    (calculate_energy est d c m).sci_score = (calculate_energy est d c m).carbon_grams ∧
    (run_command_result cmd loc ex dur).metrics.carbon_grams =
      round_to (dur * 25 / 3600000 * carbon_intensity_for loc) 4 ∧
    (run_command_result cmd loc ex dur).metrics.energy_kwh =
      round_to (dur * 25 / 3600000) 6 := by
  refine ⟨by simp [calculate_energy], by simp [calculate_energy], ?_, ?_⟩ <;>
    simp [run_command_result]

/-- Claim C2. After any sequence of append operations starting from the
empty history store, the persisted log holds at most 100 entries, and
the retained entries are exactly the most recently appended ones: the
log equals the appended sequence with all but its last 100 entries
dropped from the front (oldest evicted first). -/
theorem history_cap_retention (ms : List RunResult) :
    (ms.foldl save_to_history []).length ≤ 100 ∧
    ms.foldl save_to_history [] = ms.drop (ms.length - 100) := by
  have h := foldl_save_to_history ms []
  simp only [List.drop_nil, List.nil_append, List.length_nil] at h
  refine ⟨?_, h⟩
  rw [h, List.length_drop]
  omega

/-- Claim C3, counterexample. The claim asserts that negative inputs are
clamped to 0. With the TDP the code actually resolves for x86_64
(65 W), a cpu utilization of -100 yields power -13 W, not the 26 W
obtained at utilization 0; a memory of -4 GB likewise changes the
result relative to 0 GB. So the result for a negative input does not
equal the result with that input replaced by 0. -/
theorem power_clamp_cex :
    power_watts (CPU_TDP "x86_64") (-100) 0 ≠ power_watts (CPU_TDP "x86_64") 0 0 ∧
    power_watts (CPU_TDP "x86_64") 0 (-4) ≠ power_watts (CPU_TDP "x86_64") 0 0 := by
  have ht : CPU_TDP "x86_64" = 65 := rfl
  constructor <;>
    norm_num [ht, power_watts, CPU_POWER_FACTOR, CPU_BASELINE, RAM_WATTS_PER_GB]

/-- Claim C3, amended. The power computation is a pure total function
given by the linear formula
tdp * (cpu_percent / 100 * 0.6 + 0.4) + memory_gb * 0.375
with no failure modes, but it does not clamp: negative inputs enter the
formula directly, so for positive tdp a negative cpu utilization yields
strictly less power than utilization 0, and a negative memory value
yields strictly less power than memory 0. -/
theorem power_no_clamp_amended (tdp u m : ℚ) (htdp : 0 < tdp) (hu : u < 0) (hm : m < 0) :
    power_watts tdp u m =
      tdp * (u / 100 * CPU_POWER_FACTOR + CPU_BASELINE) + m * RAM_WATTS_PER_GB ∧
    power_watts tdp u m < power_watts tdp 0 m ∧
    power_watts tdp u m < power_watts tdp u 0 := by
  refine ⟨rfl, ?_, ?_⟩ <;>
    · simp only [power_watts, CPU_POWER_FACTOR, CPU_BASELINE, RAM_WATTS_PER_GB]
      nlinarith

/-- Witness for the amended claim C3 at tdp = 65, cpu = -100, memory = -4. -/
theorem power_no_clamp_amended_witness :
    (0:ℚ) < 65 ∧ (-100:ℚ) < 0 ∧ (-4:ℚ) < 0 ∧
    (power_watts 65 (-100) (-4) =
      65 * ((-100) / 100 * CPU_POWER_FACTOR + CPU_BASELINE) + (-4) * RAM_WATTS_PER_GB ∧
     power_watts 65 (-100) (-4) < power_watts 65 0 (-4) ∧
     power_watts 65 (-100) (-4) < power_watts 65 (-100) 0) :=
  ⟨by norm_num, by norm_num, by norm_num,
    power_no_clamp_amended 65 (-100) (-4) (by norm_num) (by norm_num) (by norm_num)⟩

/-- Claim C4. When zero samples are collected during a monitored
execution, the averaging computation yields 0 (its empty-list branch
never divides), and the resulting metrics report cpu average 0 and
memory average 0; being a total function, no division error can arise. -/
theorem zero_samples_average_zero (est : EnergyEstimator) (duration : ℚ) :
    average [] = 0 ∧
    (measure_execution_metrics est duration [] []).cpu_percent = 0 ∧
    (measure_execution_metrics est duration [] []).memory_mb = 0 := by
  refine ⟨rfl, ?_, ?_⟩ <;> simp [measure_execution_metrics, calculate_energy, average]

/-- Claim C5. The conversion driven by live-sampled averages
(measure_execution) and the conversion accepting externally supplied
duration, cpu percent and memory directly (estimate_from_metrics)
produce identical EnergyMetrics — hence identical energy, carbon and
SCI figures — for identical inputs: the sampled path hands the averaged
memory in GB to the shared converter, while estimate_from_metrics takes
the same quantity in MB and divides by 1024. -/
theorem entry_points_agree (est : EnergyEstimator) (duration : ℚ)
    (cpu_samples memory_samples : List ℚ) :
    measure_execution_metrics est duration cpu_samples memory_samples =
      estimate_from_metrics est duration (average cpu_samples)
        (average memory_samples * 1024) := by
  unfold measure_execution_metrics estimate_from_metrics
  congr 1
  field_simp

/-- Claim C6. The output of the location comparator lists its entries in
the order of the fixed input location list (Colombia, Alemania,
California, Francia — compared by name), and the first entry, the
baseline location, reports a carbon delta of exactly 0. The hypothesis
excludes a zero baseline carbon value, on which the source would raise
a ZeroDivisionError and produce no output at all. -/
theorem comparator_baseline_zero (command : String) (execs : String → ExecOutcome)
    (durations : String → ℚ)
    (hb : (run_command_result command "CO" (execs "CO")
      (durations "CO")).metrics.carbon_grams ≠ 0) :
    (compare_locations command execs durations).map Prod.fst =
      comparison_locations.map Prod.fst ∧
    (compare_locations command execs durations).head? =
      some ("Colombia",
        (run_command_result command "CO" (execs "CO") (durations "CO")).metrics.carbon_grams,
        0) := by
  constructor <;> simp [compare_locations, comparison_locations, compare_entries]

/-- Witness for claim C6: all four locations run for 10 s with a
successful execution; the baseline carbon value is nonzero. -/
theorem comparator_baseline_zero_witness :
    (run_command_result "npm test" "CO" ⟨true, "", ""⟩ 10).metrics.carbon_grams ≠ 0 ∧
    ((compare_locations "npm test" (fun _ => ⟨true, "", ""⟩) fun _ => 10).map Prod.fst =
       comparison_locations.map Prod.fst ∧
     (compare_locations "npm test" (fun _ => ⟨true, "", ""⟩) fun _ => 10).head? =
       some ("Colombia",
         (run_command_result "npm test" "CO" ⟨true, "", ""⟩ 10).metrics.carbon_grams,
         0)) := by
  have hb : (run_command_result "npm test" "CO" ⟨true, "", ""⟩ 10).metrics.carbon_grams ≠ 0 := by
    have hco : carbon_intensity_for "CO" = 165 := rfl
    simp only [run_command_result, hco, round_to, round_half_even]
    norm_num
  exact ⟨hb, comparator_baseline_zero "npm test" _ _ hb⟩

/-- Claim C7. A failed workload execution does not abort measurement: the
Measurement is still computed, carries success = false and the captured
stderr output, its energy and carbon figures are the ones determined by
the duration actually observed, and it is still appended to the
history. -/
theorem failed_run_still_measured (command location : String) (ex : ExecOutcome)
    (duration : ℚ) (history : List RunResult) (hfail : ex.success = false) :
    (run_command command location true ex duration history).1.success = false ∧
    captured_output ex = ex.stderr ∧
    (run_command command location true ex duration history).1.metrics.energy_joules =
      round_to (duration * 25) 2 ∧
    (run_command command location true ex duration history).1.metrics.carbon_grams =
      round_to (duration * 25 / 3600000 * carbon_intensity_for location) 4 ∧
    (run_command command location true ex duration history).2 =
      save_to_history history (run_command command location true ex duration history).1 := by
  refine ⟨?_, ?_, ?_, ?_, ?_⟩ <;>
    simp [run_command, run_command_result, captured_output, hfail]

/-- Witness for claim C7: a 3-second run that exits non-zero with output
on stderr. -/
theorem failed_run_still_measured_witness :
    (ExecOutcome.mk false "" "error: tests failed").success = false ∧
    ((run_command "npm test" "CO" true ⟨false, "", "error: tests failed"⟩ 3 []).1.success = false ∧
     captured_output ⟨false, "", "error: tests failed"⟩ = "error: tests failed" ∧
     (run_command "npm test" "CO" true ⟨false, "", "error: tests failed"⟩ 3
         []).1.metrics.energy_joules =
       round_to (3 * 25) 2 ∧
     (run_command "npm test" "CO" true ⟨false, "", "error: tests failed"⟩ 3
         []).1.metrics.carbon_grams =
       round_to (3 * 25 / 3600000 * carbon_intensity_for "CO") 4 ∧
     (run_command "npm test" "CO" true ⟨false, "", "error: tests failed"⟩ 3 []).2 =
       save_to_history []
         (run_command "npm test" "CO" true ⟨false, "", "error: tests failed"⟩ 3 []).1) :=
  ⟨rfl, failed_run_still_measured "npm test" "CO" ⟨false, "", "error: tests failed"⟩ 3 [] rfl⟩

/-- Claim C8. Holding memory fixed, the power model is monotonically
non-decreasing in cpu utilization between 0 and 100 percent, for the
TDP resolved from any platform string (the source resolves 65 or 15,
both nonnegative). -/
theorem power_monotone_cpu (machine : String) (u1 u2 m : ℚ)
    (h0 : 0 ≤ u1) (h12 : u1 ≤ u2) (h100 : u2 ≤ 100) :
    power_watts (CPU_TDP machine) u1 m ≤ power_watts (CPU_TDP machine) u2 m := by
  have htdp : 0 ≤ CPU_TDP machine := by
    unfold CPU_TDP
    split_ifs <;> norm_num
  simp only [power_watts, CPU_POWER_FACTOR, CPU_BASELINE, RAM_WATTS_PER_GB]
  nlinarith

/-- Witness for claim C8 at utilizations 10 and 50 with 2 GB memory on
x86_64. -/
theorem power_monotone_cpu_witness :
    (0:ℚ) ≤ 10 ∧ (10:ℚ) ≤ 50 ∧ (50:ℚ) ≤ 100 ∧
    power_watts (CPU_TDP "x86_64") 10 2 ≤ power_watts (CPU_TDP "x86_64") 50 2 :=
  ⟨by norm_num, by norm_num, by norm_num,
    power_monotone_cpu "x86_64" 10 50 2 (by norm_num) (by norm_num) (by norm_num)⟩

/-- Claim C9. Every location code other than the recognized DE and CO
resolves to the default intensity 389, and the measurement record built
for such a location carries that default; the lookup is a total
function and cannot fail. -/
theorem unknown_location_default (location command : String) (ex : ExecOutcome)
    (duration : ℚ) (hde : location ≠ "DE") (hco : location ≠ "CO") :
    carbon_intensity_for location = 389 ∧
    (run_command_result command location ex duration).metrics.carbon_intensity = 389 := by
  have h : carbon_intensity_for location = 389 := by
    simp [carbon_intensity_for, hde, hco]
  exact ⟨h, by simp [run_command_result, h]⟩

/-- Witness for claim C9 at the unrecognized location code MX. -/
theorem unknown_location_default_witness :
    ("MX" ≠ "DE") ∧ ("MX" ≠ "CO") ∧
    (carbon_intensity_for "MX" = 389 ∧
     (run_command_result "npm test" "MX" ⟨true, "", ""⟩ 1).metrics.carbon_intensity = 389) :=
  ⟨by decide, by decide,
    unknown_location_default "MX" "npm test" ⟨true, "", ""⟩ 1 (by decide) (by decide)⟩

/-- Claim C10. Appending a Measurement to the history leaves every
retained pre-existing entry unchanged and in its original relative
order: the resulting log is a suffix of the old log followed by the new
entry, and entries can only be evicted from the front. -/
theorem append_frame_suffix (h : List RunResult) (m : RunResult) :
    save_to_history h m = h.drop (h.length + 1 - 100) ++ [m] ∧
    h.drop (h.length + 1 - 100) <:+ h :=
  ⟨save_to_history_eq h m, List.drop_suffix _ h⟩

end GreenPipeline
